import Mathlib

/-
Verification development for the taxjimmy invoice tax-reconciliation pipeline.

The definitions below are a shallow embedding of the Python source in
src/taxright/services.py (class InvoiceDataParser, function
create_invoice_from_ocr, class BedrockKnowledgeBaseService) and of the
relevant model enumerations in src/taxright/models.py.

Modelling conventions:
  * Python decimal.Decimal values are modelled as exact rationals (ℚ).
    Decimal add/sub/mul on the magnitudes appearing here are exact; the
    only inexact Decimal operation used by the code is division (28
    significant digits), which is modelled as exact rational division.
  * Python strings are modelled as List Char.  str.lower / str.upper are
    modelled with Char.toLower / Char.toUpper, which agree with Python on
    ASCII; all string constants in the source are ASCII.
  * Decimal("...") supports the special values NaN / sNaN / Infinity, so
    the result of a coercion is a DecVal: a finite rational or a special.
  * Database records are modelled as structures; persisting a record is
    modelled by returning it (an Option is none when nothing is written).
-/

namespace TaxRight

/-- Characters stripped by Python str.strip() for the ASCII range
(space, tab, newline, carriage return, vertical tab, form feed). -/
def isPyWS (c : Char) : Bool :=
  c = ' ' || c = '\t' || c = '\n' || c = '\r' || c = '\x0b' || c = '\x0c'

/-- Python str.strip(): drop leading and trailing whitespace. -/
def pstrip (s : List Char) : List Char :=
  ((s.dropWhile isPyWS).reverse.dropWhile isPyWS).reverse

/-- Numeric value of a list of ASCII digits (most significant first). -/
def natOfDigits (ds : List Char) : ℕ :=
  ds.foldl (fun n c => n * 10 + (c.toNat - 48)) 0

/-- Boolean substring test, modelling the Python `needle in haystack`
operator on strings. -/
def containsSub (needle hay : List Char) : Bool :=
  hay.tails.any (fun t => needle.isPrefixOf t)

/-- Result of the Python decimal.Decimal constructor: a finite rational,
a (quiet or signaling) NaN, or a signed infinity. -/
inductive DecVal
  | fin (q : ℚ)
  | nan
  | inf (neg : Bool)
deriving DecidableEq, Repr

/-- Leading sign of a numeric string; returns (isNegative, rest). -/
def readSign : List Char → Bool × List Char
  | '+' :: r => (false, r)
  | '-' :: r => (true, r)
  | s => (false, s)

/-- Exponent part of the Decimal grammar: either nothing is left, or
an indicator e/E followed by an optionally signed digit string that must
consume the remainder. -/
def readExp : List Char → Option ℤ
  | [] => some 0
  | 'e' :: t =>
    (fun p : Bool × List Char =>
      (fun q : List Char × List Char =>
        if q.1 = [] ∨ q.2 ≠ [] then none
        else some (if p.1 then -(natOfDigits q.1 : ℤ) else (natOfDigits q.1 : ℤ)))
      (p.2.span Char.isDigit)) (readSign t)
  | 'E' :: t =>
    (fun p : Bool × List Char =>
      (fun q : List Char × List Char =>
        if q.1 = [] ∨ q.2 ≠ [] then none
        else some (if p.1 then -(natOfDigits q.1 : ℤ) else (natOfDigits q.1 : ℤ)))
      (p.2.span Char.isDigit)) (readSign t)
  | _ => none

/-- Character-level token recognized by the Decimal string grammar: a
NaN (quiet or signaling, payload discarded), a signed infinity, or a
signed numeric value given by its integer digits, fraction digits and
exponent. -/
inductive DecTok
  | nanTok
  | infTok (neg : Bool)
  | numTok (neg : Bool) (ip fp : List Char) (e : ℤ)
deriving DecidableEq, Repr

/-- Numeric branch of the Decimal grammar after the sign has been read:
`digits [. digits] [exp]` or `. digits [exp]`, requiring at least one
digit overall and consuming the whole remainder. -/
def readNumeric (neg : Bool) (r : List Char) : Option DecTok :=
  let ipPair := r.span Char.isDigit
  let fpPair : List Char × List Char :=
    match ipPair.2 with
    | '.' :: t => t.span Char.isDigit
    | _ => ([], ipPair.2)
  if ipPair.1 = [] ∧ fpPair.1 = [] then none
  else
    match readExp fpPair.2 with
    | none => none
    | some e => some (.numTok neg ipPair.1 fpPair.1 e)

/-- Tokenizer of the Python decimal.Decimal string constructor.  Grammar
per the decimal module: optional surrounding whitespace, underscores
removed, optional sign, then a numeric value, Inf/Infinity, NaN or sNaN
(case-insensitive, NaN may carry a digit payload).  Returns none where
the constructor raises InvalidOperation. -/
def parseDecTok (s0 : List Char) : Option DecTok :=
  let s := (pstrip s0).filter (fun c => c != '_')
  let sg := readSign s
  let low := sg.2.map Char.toLower
  if low.take 3 = "nan".toList && (low.drop 3).all Char.isDigit then some .nanTok
  else if low.take 4 = "snan".toList && (low.drop 4).all Char.isDigit then some .nanTok
  else if low = "inf".toList || low = "infinity".toList then some (.infTok sg.1)
  else readNumeric sg.1 sg.2

/-- Value denoted by a Decimal token. -/
def decOfTok : DecTok → DecVal
  | .nanTok => .nan
  | .infTok neg => .inf neg
  | .numTok neg ip fp e =>
    .fin ((if neg then -1 else 1) *
      ((natOfDigits ip : ℚ) + (natOfDigits fp : ℚ) / 10 ^ fp.length) * 10 ^ e)

/-- Python decimal.Decimal string constructor: tokenize, then value. -/
def parseDec (s0 : List Char) : Option DecVal :=
  (parseDecTok s0).map decOfTok

/-- JSON scalar values as produced by json.loads, the input domain of the
coercion helpers. -/
inductive JVal
  | num (q : ℚ)
  | str (s : List Char)
  | boolv (b : Bool)
  | null
  | arr
  | obj
deriving DecidableEq, Repr

/-- String cleaning performed by the coercion helpers before calling
Decimal: remove every dollar sign and comma, then strip. -/
def cleanMoney (s : List Char) : List Char :=
  pstrip (s.filter (fun c => c != '$' && c != ','))

/-- InvoiceDataParser._get_decimal and ._get_decimal_from_dict
(services.py lines 132-144 and 231-241; identical except for logging).
The entry is none when the key is absent (dict.get returns the default,
which round-trips through Decimal unchanged), null maps to the default,
strings are cleaned of dollar signs and commas then given to Decimal,
bool/list/dict values make Decimal(str(value)) raise and yield the
default.  JSON numbers are modelled as the exact decimal value carried
by their literal. -/
def getDecimal (v : Option JVal) (dflt : ℚ) : DecVal :=
  match v with
  | none => .fin dflt
  | some JVal.null => .fin dflt
  | some (JVal.num q) => .fin q
  | some (JVal.boolv _) => .fin dflt
  | some JVal.arr => .fin dflt
  | some JVal.obj => .fin dflt
  | some (JVal.str s) => (parseDec (cleanMoney s)).getD (.fin dflt)

/-- Rounding half-to-even of a rational to an integer, the default
rounding mode (ROUND_HALF_EVEN) used by Decimal.quantize and by Python
fixed-point string formatting. -/
def roundHalfEven (x : ℚ) : ℤ :=
  let f := ⌊x⌋
  if x - f < 1/2 then f
  else if 1/2 < x - f then f + 1
  else if f % 2 = 0 then f else f + 1

/-- Decimal.quantize to p decimal places with the default
ROUND_HALF_EVEN mode. -/
def quantize (p : ℕ) (x : ℚ) : ℚ :=
  (roundHalfEven (x * 10 ^ p) : ℚ) / 10 ^ p

/-- Tax status enumeration from InvoiceLineItem.TAX_STATUS_CHOICES
(models.py lines 123-127); InvoiceDataParser._get_tax_status clamps any
other value to unknown. -/
inductive TaxStatus
  | taxable
  | exempt
  | unknown
deriving DecidableEq, Repr

/-- Normalized line item produced by InvoiceDataParser._get_line_items
for one input dict (the fields the claims are about). -/
structure ParsedItem where
  quantity : ℚ
  unit_price : ℚ
  line_total : ℚ
  discount_amount : ℚ
deriving DecidableEq, Repr

/-- Per-item validation logic of InvoiceDataParser._get_line_items
(services.py lines 180-224) on already-coerced decimal fields.
line_total is an Option: none models a dict missing the key, in which
case _get_decimal_from_dict returns the default Decimal("0.00").
The first branch is the source's explicit `pass`: when line_total is 0
with positive quantity and unit_price, nothing is recalculated (the
comment there says to trust OCR's zero).  Otherwise, when line_total is
more than one cent away from quantity*unit_price - discount and no
discount was extracted and line_total < quantity*unit_price, the item
discount is inferred as quantity*unit_price - line_total. -/
def validateLineItem (q u : ℚ) (ltOpt : Option ℚ) (d : ℚ) : ParsedItem :=
  let lt := ltOpt.getD 0
  let expectedLineTotal := q * u - d
  if lt = 0 ∧ 0 < q ∧ 0 < u then
    ⟨q, u, lt, d⟩
  else
    if 1/100 < |lt - expectedLineTotal| then
      (if d = 0 ∧ lt < q * u then ⟨q, u, lt, q * u - lt⟩ else ⟨q, u, lt, d⟩)
    else ⟨q, u, lt, d⟩

/-- Invoice-level discount inference of
InvoiceDataParser.validate_and_extract (services.py lines 76-123),
returning the final invoice_discount_amount.  The source computes
zero_total_ratio with float division and compares both ratios against
0.5; both are modelled as exact rational comparisons. -/
def inferInvoiceDiscount (extractedDiscount totalAmount : ℚ) (lineTotals : List ℚ) : ℚ :=
  let lineItemsTotal := lineTotals.sum
  let expectedTotal := lineItemsTotal - extractedDiscount
  let itemsWithZeroTotal := lineTotals.countP (fun lt => decide (lt = 0))
  let totalItems := lineTotals.length
  let zeroRatio : ℚ := if 0 < totalItems then (itemsWithZeroTotal : ℚ) / totalItems else 0
  let mismatch := lineItemsTotal - totalAmount
  let mismatchRatio : ℚ := if 0 < totalAmount then mismatch / totalAmount else 0
  if 1/100 < |expectedTotal - totalAmount| then
    if extractedDiscount = 0 ∧ totalAmount < lineItemsTotal
        ∧ zeroRatio < 1/2 ∧ mismatchRatio < 1/2 then
      mismatch
    else extractedDiscount
  else extractedDiscount

/-- Invoice state_code as stored by create_invoice_from_ocr: the raw
JSON string goes through _get_string('state_code', default='') (str,
strip, falsy values give the default — services.py lines 127-130), then
.upper()[:2] (line 71), then `data['state_code'] or 'XX'` (lines 278
and 292).  The argument is none when the key is absent. -/
def stateCodeFromRaw (raw : Option (List Char)) : List Char :=
  let extracted :=
    match raw with
    | none => []
    | some s => if s = [] then [] else pstrip s
  let upper2 := (extracted.map Char.toUpper).take 2
  if upper2 = [] then ['X', 'X'] else upper2

/-- Single match attempt of the rate regex (\d+\.?\d*)\s*% at the head
of the list: one or more digits, an optional point with following
digits, optional whitespace, then a percent sign.  Returns the captured
(integer digits, fraction digits) and the rest of the input.  Greedy
matching is equivalent to the regex here because a digit is neither a
point, whitespace nor a percent sign. -/
def rateTokenAt (s : List Char) : Option ((List Char × List Char) × List Char) :=
  let ipPair := s.span Char.isDigit
  if ipPair.1 = [] then none
  else
    let fpPair : List Char × List Char :=
      match ipPair.2 with
      | '.' :: t => t.span Char.isDigit
      | _ => ([], ipPair.2)
    match fpPair.2.dropWhile isPyWS with
    | '%' :: rest => some ((ipPair.1, fpPair.1), rest)
    | _ => none

/-- Non-overlapping left-to-right scan of re.findall, with fuel.  Each
successful match consumes at least two characters and each failure one,
so fuel equal to the input length is always sufficient. -/
def rateTokens : ℕ → List Char → List (List Char × List Char)
  | 0, _ => []
  | _ + 1, [] => []
  | fuel + 1, c :: t =>
    match rateTokenAt (c :: t) with
    | some (tk, rest) => tk :: rateTokens fuel rest
    | none => rateTokens fuel t

/-- Value of one captured percentage: Decimal(rate_str) / 100. -/
def tokenRate (tk : List Char × List Char) : ℚ :=
  ((natOfDigits tk.1 : ℚ) + (natOfDigits tk.2 : ℚ) / 10 ^ tk.2.length) / 100

/-- BedrockKnowledgeBaseService._extract_rates_from_reasoning
(services.py lines 695-715): find every percentage mention and convert
it to a decimal rate.  A captured string always parses, so the source's
per-match exception handler never skips anything. -/
def extractRates (reasoning : List Char) : List ℚ :=
  (rateTokens reasoning.length reasoning).map tokenRate

/-- Exemption keywords checked by verify_line_item_tax (services.py
line 844), in source order. -/
def exemptKeywords : List (List Char) :=
  ["exempt".toList, "not subject to tax".toList, "no tax".toList,
   "tax-free".toList, "non-taxable".toList]

/-- Test whether any exemption keyword occurs in the lower-cased
reasoning text. -/
def hasExemptKeyword (reasoning : List Char) : Bool :=
  exemptKeywords.any (fun kw => containsSub kw (reasoning.map Char.toLower))

/-- Contradiction phrases checked by verify_line_item_tax (services.py
lines 892-902), in source order. -/
def contradictionPhrases : List (List Char) :=
  ["expected rate differs".toList, "expected rate is different".toList,
   "expected rate does not match".toList, "applied rate does not match".toList,
   "applied rate differs".toList, "applied rate is different".toList,
   "should be".toList, "should have been".toList, "technically incorrect".toList]

/-- Python fixed-point formatting "{x:.4f}" of a Decimal: round
half-to-even to 4 decimal places and print with exactly 4 fraction
digits. -/
def fmtFixed4 (x : ℚ) : List Char :=
  let n := roundHalfEven (x * 10000)
  let m := n.natAbs
  let fpd := Nat.toDigits 10 (m % 10000)
  (if n < 0 then ['-'] else [])
    ++ Nat.toDigits 10 (m / 10000)
    ++ '.' :: (List.replicate (4 - fpd.length) '0' ++ fpd)

/-- Percentage rendering "{rate * 100:.4f}%" used in the engine's
auto-correction notes. -/
def pct4 (r : ℚ) : List Char := fmtFixed4 (r * 100) ++ ['%']

/-- Reasoning prefix added when a mismatch forces is_correct to false
(services.py lines 870-874). -/
def mismatchNote (a e : ℚ) (orig : List Char) : List Char :=
  "[Auto-corrected] The applied tax rate (".toList ++ pct4 a
    ++ ") does not match the expected rate (".toList ++ pct4 e
    ++ "), so is_correct has been set to false. Original reasoning: ".toList ++ orig

/-- Reasoning prefix added when matching rates force is_correct to true
(services.py line 882). -/
def matchNote (a e : ℚ) (orig : List Char) : List Char :=
  "[Auto-corrected] The applied tax rate (".toList ++ pct4 a
    ++ ") matches the expected rate (".toList ++ pct4 e ++ "). ".toList ++ orig

/-- Reasoning prefix added when contradiction detection fires
(services.py lines 921-925). -/
def contradictionNote (m a : ℚ) (orig : List Char) : List Char :=
  "[Auto-corrected] Contradictory reasoning detected. The reasoning suggests the expected rate (".toList
    ++ pct4 m ++ ") differs from the applied rate (".toList ++ pct4 a
    ++ "), so is_correct has been set to false. Original reasoning: ".toList ++ orig

/-- Reasoning prefix added for a precision-only difference
(services.py lines 953-957). -/
def clarifiedNote (a e : ℚ) (orig : List Char) : List Char :=
  "[Clarified] The applied tax rate (".toList ++ pct4 a
    ++ ") matches the expected rate (".toList ++ pct4 e
    ++ "). Any mention of rate differences in the original reasoning referred to decimal precision formatting, not actual rate differences. Original reasoning: ".toList
    ++ orig

/-- Parsed knowledge-base verification record, the shape returned by
_parse_verification_response and threaded through verify_line_item_tax. -/
structure VerifResult where
  is_correct : Bool
  expected_tax_rate : ℚ
  confidence_score : ℚ
  reasoning : List Char
deriving DecidableEq, Repr

/-- Rate tolerance Decimal("0.0001") used throughout the engine. -/
def tol : ℚ := 1/10000

/-- Python loop over rates_in_reasoning in the zero-expected-rate
override (services.py lines 816-839): the first mentioned rate above
tolerance always breaks the loop, adopting the applied rate when the
mention is within tolerance of it and the mentioned rate otherwise;
mentions at or below tolerance are skipped. -/
def adoptFromMentioned (appliedRate : ℚ) : List ℚ → Option ℚ
  | [] => none
  | m :: rest =>
    if tol < m then
      (if |m - appliedRate| ≤ tol then some appliedRate else some m)
    else adoptFromMentioned appliedRate rest

/-- Zero-expected-rate override of verify_line_item_tax (services.py
lines 807-856).  When the KB returned expected rate 0 for an item with
a positive applied rate: adopt a rate from the reasoning mentions if
one above tolerance exists (unconditionally); otherwise adopt the
applied rate exactly when tax_status is taxable and no exemption
keyword occurs in the reasoning. -/
def applyZeroRateOverride (appliedRate : ℚ) (taxStatus : TaxStatus) (v : VerifResult) : VerifResult :=
  if v.expected_tax_rate = 0 ∧ 0 < appliedRate then
    match adoptFromMentioned appliedRate (extractRates v.reasoning) with
    | some r => { v with expected_tax_rate := r }
    | none =>
      if taxStatus = TaxStatus.taxable ∧ hasExemptKeyword v.reasoning = false then
        { v with expected_tax_rate := appliedRate }
      else v
  else v

/-- Hard consistency rule of verify_line_item_tax (services.py lines
858-882): if the applied and (post-override) expected rates differ
beyond tolerance, is_correct is forced to false; if they match it is
forced to true.  Reasoning is annotated when the stored value flips
(on the matching side only when the original reasoning mentions an
applied tax rate of 0%). -/
def enforceConsistency (appliedRate : ℚ) (v : VerifResult) : VerifResult :=
  let ratesMatch := |appliedRate - v.expected_tax_rate| ≤ tol
  if ¬ ratesMatch then
    (if v.is_correct then
      { v with is_correct := false,
               reasoning := mismatchNote appliedRate v.expected_tax_rate v.reasoning }
    else v)
  else
    (if v.is_correct = false then
      (if containsSub "applied tax rate of 0%".toList (v.reasoning.map Char.toLower) then
        { v with is_correct := true,
                 reasoning := matchNote appliedRate v.expected_tax_rate v.reasoning }
      else { v with is_correct := true })
    else v)

/-- Contradiction detection of verify_line_item_tax (services.py lines
884-958), entered only when is_correct is still true: the first
reasoning mention differing from the applied rate beyond tolerance
while within tolerance of the expected rate forces is_correct to
false; otherwise, when a contradiction phrase occurs but every mention
reconciles with the applied or expected rate, the reasoning may be
annotated as clarified and is_correct is left unchanged. -/
def detectContradiction (appliedRate : ℚ) (v : VerifResult) : VerifResult :=
  if v.is_correct then
    let low := v.reasoning.map Char.toLower
    let rates := extractRates v.reasoning
    let e := v.expected_tax_rate
    match rates.find? (fun m => decide (tol < |m - appliedRate|) && decide (|m - e| ≤ tol)) with
    | some m =>
      { v with is_correct := false,
               reasoning := contradictionNote m appliedRate v.reasoning }
    | none =>
      if contradictionPhrases.any (fun p => containsSub p low) then
        (if rates.all (fun m => decide (|m - appliedRate| ≤ tol) || decide (|m - e| ≤ tol))
            ∧ rates ≠ [] then
          (if containsSub "technically incorrect".toList low
              || containsSub "does not match".toList low then
            { v with reasoning := clarifiedNote appliedRate e v.reasoning }
          else v)
        else v)
      else v
  else v

/-- Per-line-item reconciliation of
BedrockKnowledgeBaseService.verify_line_item_tax after the KB response
has been parsed (services.py lines 800-958): the zero-rate override,
then the hard consistency rule, then contradiction detection. -/
def verifyLineItemTax (appliedRate : ℚ) (taxStatus : TaxStatus) (kb : VerifResult) : VerifResult :=
  detectContradiction appliedRate (enforceConsistency appliedRate (applyZeroRateOverride appliedRate taxStatus kb))

/-- Line item record fields used by invoice-level verification
(InvoiceLineItem, models.py lines 120-160). -/
structure LineItemM where
  line_total : ℚ
  tax_amount : ℚ
  tax_rate : ℚ
  tax_status : TaxStatus
deriving DecidableEq, Repr

/-- Invoice record fields used by invoice-level verification (Invoice,
models.py lines 6-97).  total_tax_amount is a non-nullable decimal with
default 0, so Python truthiness of the field is equivalent to being
nonzero. -/
structure InvoiceM where
  state_code : List Char
  total_amount : ℚ
  total_tax_amount : ℚ
  invoice_discount_amount : ℚ
  line_items : List LineItemM
deriving DecidableEq, Repr

/-- Determination status enumeration from
TaxDetermination.DETERMINATION_STATUS_CHOICES (models.py lines
208-212). -/
inductive DetStatus
  | verified
  | discrepancy
  | error
deriving DecidableEq, Repr

/-- TaxDetermination fields written by verify_invoice_taxes
(models.py lines 205-237, services.py lines 1295-1310). -/
structure DeterminationM where
  determination_status : DetStatus
  expected_tax : ℚ
  actual_tax : ℚ
  discrepancy_amount : ℚ
deriving DecidableEq, Repr

/-- BedrockKnowledgeBaseService._validate_tax_rate (services.py lines
717-748): clamp a rate into [0, 1] and quantize to 4 decimal places. -/
def validateTaxRate (r : ℚ) : ℚ :=
  if r < 0 then 0 else if 1 < r then 1 else quantize 4 r

/-- Tax-display classification of _build_tax_verification_prompt
(services.py lines 494-511): lump-sum total, per-line, exempt
candidate, or no context emitted. -/
inductive TaxDisplayMode
  | totalShown
  | perLine
  | exemptCandidate
  | noContext
deriving DecidableEq, Repr

/-- Mode selection of _build_tax_verification_prompt (services.py lines
502-511), with totalTaxAmount being invoice.total_tax_amount (or 0). -/
def promptTaxDisplayMode (li : LineItemM) (totalTaxAmount : ℚ) : TaxDisplayMode :=
  if li.tax_amount = 0 ∧ 0 < li.tax_rate ∧ 0 < totalTaxAmount then .totalShown
  else if 0 < li.tax_amount then .perLine
  else if li.tax_amount = 0 ∧ li.tax_rate = 0 then .exemptCandidate
  else .noContext

/-- Expected tax contributed by one included (item, validated expected
rate) pair in the second pass of verify_invoice_taxes (services.py
lines 1147-1210): fall back to the applied rate when the expected rate
collapsed to 0 against a positive applied rate, clamp a negative
line_total, allocate the invoice-level discount proportionally over the
taxable subtotal when line totals are pre-discount, and multiply. -/
def expectedTaxForItem (inv : InvoiceM) (taxableSubtotal : ℚ) (includeDisc : Bool)
    (p : LineItemM × ℚ) : ℚ :=
  let er := if p.2 = 0 ∧ 0 < p.1.tax_rate then validateTaxRate p.1.tax_rate else p.2
  let base := if p.1.line_total < 0 then 0 else p.1.line_total
  let discounted :=
    if 0 < inv.invoice_discount_amount ∧ 0 < taxableSubtotal ∧ includeDisc = false then
      (let pd := inv.invoice_discount_amount * (base / taxableSubtotal)
       if base - pd < 0 then 0 else base - pd)
    else base
  er * discounted

/-- Expected-tax aggregation of verify_invoice_taxes (services.py lines
1092-1256).  verifs carries one per-item verification in line-item
order, exactly as built by the loop at lines 1033-1070, so the
expected-rate map lookup never misses (the source's expected_rate-is-
None fallback is unreachable in this flow).  Items are included unless
tax_status is not taxable and the validated expected rate is zero;
line totals of included items form the discount-allocation subtotal;
the pre/post-discount detection compares the full subtotal with
total_amount; the result is quantized to currency precision.  Decimal
division (28 significant digits) is modelled as exact division. -/
def computeExpectedTax (inv : InvoiceM) (verifs : List VerifResult) : ℚ :=
  let pairs := inv.line_items.zip (verifs.map (fun v => validateTaxRate v.expected_tax_rate))
  let taxableItems := pairs.filter
    (fun p => !(decide (p.1.tax_status ≠ TaxStatus.taxable) && decide (p.2 = 0)))
  let taxableSubtotal := (taxableItems.map (fun p => p.1.line_total)).sum
  let subtotal := (inv.line_items.map (fun li => li.line_total)).sum
  let includeDisc :=
    if 0 < inv.invoice_discount_amount then
      (if |subtotal - inv.total_amount| ≤ 1/100 then true
       else if |subtotal - (inv.total_amount + inv.invoice_discount_amount)| ≤ 1/100 then false
       else false)
    else false
  quantize 2 ((taxableItems.map (expectedTaxForItem inv taxableSubtotal includeDisc)).sum)

/-- Actual-tax selection of verify_invoice_taxes (services.py lines
1258-1278): invoice.total_tax_amount when truthy and positive, else the
sum of per-line max(0, tax_amount); clamped at 0 (unreachable) and
quantized to currency precision. -/
def computeActualTax (inv : InvoiceM) : ℚ :=
  let t :=
    if inv.total_tax_amount ≠ 0 ∧ 0 < inv.total_tax_amount then inv.total_tax_amount
    else (inv.line_items.map (fun li => max 0 li.tax_amount)).sum
  let t2 := if t < 0 then 0 else t
  quantize 2 t2

/-- Invoice-level path of
BedrockKnowledgeBaseService.verify_invoice_taxes (services.py lines
1013-1319) as far as the TaxDetermination record is concerned.  The
early sentinel return for a missing or XX state code (lines 1025-1031)
is the none case: nothing is written.  Otherwise a determination is
always upserted (lines 1295-1310); aggFail models an exception inside
the calculation try-block, after which the source falls back to
expected 0 and actual total_tax_amount-if-positive-else-0 (lines
1280-1284) but still writes the record.  The summary's all_correct is
vacuously true for an invoice without line items.  The retroactive
fallback updates to LineItemTaxVerification rows (lines 1216-1253)
touch verification records only, never the determination, and are not
modelled. -/
def verifyInvoiceTaxes (inv : InvoiceM) (verifs : List VerifResult) (aggFail : Bool) :
    Option DeterminationM :=
  if inv.state_code = [] ∨ inv.state_code = "XX".toList then none
  else
    let allCorrect := verifs.all (fun v => v.is_correct)
    let amounts : ℚ × ℚ :=
      if aggFail then
        (0, if inv.total_tax_amount ≠ 0 ∧ 0 < inv.total_tax_amount then inv.total_tax_amount else 0)
      else (computeExpectedTax inv verifs, computeActualTax inv)
    some { determination_status := if allCorrect then DetStatus.verified else DetStatus.discrepancy,
           expected_tax := amounts.1,
           actual_tax := amounts.2,
           discrepancy_amount := amounts.2 - amounts.1 }

/-- Scenario B line item: tax_amount 0, tax_rate 0.0825, taxable. -/
def liB : LineItemM := ⟨500, 0, 825/10000, TaxStatus.taxable⟩

/-- Scenario B invoice: one line item, total_tax_amount 41.25. -/
def invB : InvoiceM := ⟨"TX".toList, 500, 4125/100, 0, [liB]⟩

/-- Concrete invoice for the C10 witness: valid state code, positive
total_tax_amount, no line items. -/
def inv10 : InvoiceM := ⟨"CA".toList, 100, 5, 0, []⟩

/-- Determination produced for inv10 on the aggregation-failure path. -/
def det10 : DeterminationM := ⟨DetStatus.verified, 0, 5, 5⟩

/-- Concrete invoice for the C3 counterexample: valid state code,
positive total_tax_amount, no line items at all. -/
def inv3 : InvoiceM := ⟨"CA".toList, 100, 7, 0, []⟩

/-- Scenario E knowledge-base answer: expected rate 0 with a reasoning
that mentions 7%. -/
def kbE : VerifResult := ⟨false, 0, 1/2, "The applicable rate is 7%".toList⟩

/-- Counterexample knowledge-base answer for C2: expected rate 0, an
exemption keyword in the reasoning, and a 7% mention. -/
def kbCexC2 : VerifResult := ⟨false, 0, 1/2, "Item is exempt but a 7% rate was applied".toList⟩

/-- Witness knowledge-base answer for C2: expected rate 0 and no rate
mention in the reasoning. -/
def kbWitC2 : VerifResult := ⟨false, 0, 1, "no digits here".toList⟩

/-- Clean knowledge-base answer used as the C1 witness input. -/
def kbWitC1 : VerifResult := ⟨true, 7/100, 1, "rate confirmed".toList⟩

/-- Knowledge-base answer for the C1 counterexample: is_correct true,
expected rate 0.0501 (within tolerance of the applied 0.05), and a
reasoning mentioning 5.02%. -/
def kbCexC1 : VerifResult := ⟨true, 501/10000, 9/10, "the rate is 5.02%".toList⟩

/-- Claim C5, counterexample.  The claim says every parsed line item
with extracted discount 0 and line_total < quantity * unit_price gets
discount_amount = quantity * unit_price - line_total.  For quantity 1,
unit_price 10, line_total 0, the premises hold (0 < 10) but the source
takes the explicit pass branch for a zero line_total with positive
quantity and unit_price, and the discount stays 0 instead of 10. -/
theorem C5_counterexample :
    ((0:ℚ) = 0 ∧ (0:ℚ) < 1 * 10) ∧
      (validateLineItem 1 10 (some 0) 0).discount_amount = 0 ∧
      (0:ℚ) ≠ 1 * 10 - 0 := by
  refine ⟨⟨rfl, by norm_num⟩, ?_, by norm_num⟩
  norm_num [validateLineItem]

/-- Claim C5, amended.  The line-item discount is inferred as
quantity * unit_price - line_total exactly when the extracted discount
is 0, line_total < quantity * unit_price, line_total is more than one
cent away from quantity * unit_price - discount, and the item is not in
the zero-line-total pass branch (line_total = 0 with positive quantity
and unit_price); otherwise the extracted discount is kept. -/
theorem C5_amended :
    ∀ q u lt d : ℚ, (validateLineItem q u (some lt) d).discount_amount =
      if d = 0 ∧ lt < q * u ∧ 1/100 < |lt - (q * u - d)| ∧ ¬(lt = 0 ∧ 0 < q ∧ 0 < u)
      then q * u - lt else d := by
  intro q u lt d
  simp only [validateLineItem, Option.getD_some]
  by_cases hPass : lt = 0 ∧ 0 < q ∧ 0 < u
  · rw [if_pos hPass, if_neg (by tauto :
      ¬(d = 0 ∧ lt < q * u ∧ 1/100 < |lt - (q * u - d)| ∧ ¬(lt = 0 ∧ 0 < q ∧ 0 < u)))]
  · by_cases hTol : 1/100 < |lt - (q * u - d)|
    · by_cases hInf : d = 0 ∧ lt < q * u
      · rw [if_neg hPass, if_pos hTol, if_pos hInf,
          if_pos (⟨hInf.1, hInf.2, hTol, hPass⟩ :
            d = 0 ∧ lt < q * u ∧ 1/100 < |lt - (q * u - d)| ∧ ¬(lt = 0 ∧ 0 < q ∧ 0 < u))]
      · rw [if_neg hPass, if_pos hTol, if_neg hInf, if_neg (by tauto :
          ¬(d = 0 ∧ lt < q * u ∧ 1/100 < |lt - (q * u - d)| ∧ ¬(lt = 0 ∧ 0 < q ∧ 0 < u)))]
    · rw [if_neg hPass, if_neg hTol, if_neg (by tauto :
        ¬(d = 0 ∧ lt < q * u ∧ 1/100 < |lt - (q * u - d)| ∧ ¬(lt = 0 ∧ 0 < q ∧ 0 < u)))]

/-- Claim C6, counterexample.  The claim says an item missing line_total
has it set to quantity * unit_price when that product is nonzero.  For
quantity 2, unit_price 5 and a missing line_total the product is 10,
but the parser leaves the defaulted 0 in place (the recalculation
branch in the source is an explicit pass). -/
theorem C6_counterexample :
    (2:ℚ) * 5 ≠ 0 ∧
      (validateLineItem 2 5 none 0).line_total = 0 ∧
      (validateLineItem 2 5 none 0).line_total ≠ 2 * 5 := by
  refine ⟨by norm_num, ?_, ?_⟩ <;> norm_num [validateLineItem]

/-- Claim C6, amended.  A line item whose JSON is missing line_total
gets the default 0 and the parser never recalculates it (nor any
present line_total) from quantity * unit_price. -/
theorem C6_amended :
    ∀ q u d : ℚ, ∀ ltOpt : Option ℚ,
      (validateLineItem q u ltOpt d).line_total = ltOpt.getD 0 := by
  intro q u d ltOpt
  simp only [validateLineItem]
  split_ifs <;> rfl

/-- Claim C9, counterexample.  The claim says state_code is always
exactly 2 characters or the sentinel XX.  A raw OCR value "C" survives
strip, upper and the [:2] slice as the single character "C", which is
truthy, so the `or XX` fallback does not replace it: the stored code
has length 1. -/
theorem C9_counterexample :
    stateCodeFromRaw (some ['C']) = ['C'] ∧
      (stateCodeFromRaw (some ['C'])).length ≠ 2 ∧
      stateCodeFromRaw (some ['C']) ≠ ['X', 'X'] := by
  decide

/-- Claim C9, amended.  The stored state_code is always nonempty and at
most 2 characters: the empty extraction becomes the sentinel XX, and
longer strings are cut to their first two characters, but a one-character
extraction is stored as-is. -/
theorem C9_amended :
    ∀ raw : Option (List Char),
      stateCodeFromRaw raw ≠ [] ∧ (stateCodeFromRaw raw).length ≤ 2 := by
  intro raw
  simp only [stateCodeFromRaw]
  constructor
  · split_ifs with h
    · decide
    · exact h
  · split_ifs with h
    · decide
    · simp [List.length_take]

/-- Claim C4, counterexample.  The claim says the invoice discount is
inferred exactly when its four conditions hold (extracted discount
zero, sum of line totals exceeds total_amount, fewer than half the
items have zero line_total, mismatch under half of total_amount).  For
one line item of 10.01 against total_amount 10 all four hold, yet the
source infers nothing because its entry gate also requires the
mismatch to exceed one cent, which 0.01 does not. -/
theorem C4_counterexample :
    ((0:ℚ) = 0 ∧ (10:ℚ) < ([1001/100] : List ℚ).sum
      ∧ 2 * (([1001/100] : List ℚ).countP (fun lt => decide (lt = 0)))
          < ([1001/100] : List ℚ).length
      ∧ (([1001/100] : List ℚ).sum - 10) / 10 < 1/2)
    ∧ inferInvoiceDiscount 0 10 [1001/100] = 0
    ∧ ([1001/100] : List ℚ).sum - 10 ≠ 0 := by
  refine ⟨⟨rfl, by norm_num, by norm_num [List.countP_cons, List.countP_nil], by norm_num⟩,
    ?_, by norm_num⟩
  norm_num [inferInvoiceDiscount, lt_abs]

/-- Claim C4, amended.  The invoice-level discount becomes
sum(line_totals) - total_amount exactly when the validation gate
|sum(line_totals) - extracted_discount - total_amount| > 0.01 fires
together with the four conditions of the claim (extracted discount
zero, sum exceeding total_amount, zero-line-total ratio below one half,
mismatch ratio below one half, both ratios as computed by the source
with a zero ratio for an empty list or nonpositive total); otherwise
the extracted discount is kept.  Scenario A (items 60 and 40 against
total 90) infers 10. -/
theorem C4_amended :
    (∀ d T : ℚ, ∀ ls : List ℚ,
      inferInvoiceDiscount d T ls =
        if 1/100 < |ls.sum - d - T| ∧ d = 0 ∧ T < ls.sum
            ∧ (if 0 < ls.length then ((ls.countP (fun lt => decide (lt = 0)) : ℚ) / ls.length)
               else 0) < 1/2
            ∧ (if 0 < T then (ls.sum - T) / T else 0) < 1/2
        then ls.sum - T else d)
    ∧ inferInvoiceDiscount 0 90 [60, 40] = 10 := by
  constructor
  · intro d T ls
    simp only [inferInvoiceDiscount]
    by_cases hGate : 1/100 < |ls.sum - d - T|
    · by_cases hConds : d = 0 ∧ T < ls.sum
          ∧ (if 0 < ls.length then ((ls.countP (fun lt => decide (lt = 0)) : ℚ) / ls.length)
             else 0) < 1/2
          ∧ (if 0 < T then (ls.sum - T) / T else 0) < 1/2
      · rw [if_pos hGate, if_pos hConds, if_pos ⟨hGate, hConds⟩]
      · rw [if_pos hGate, if_neg hConds, if_neg (by tauto)]
    · rw [if_neg hGate, if_neg (by tauto)]
  · norm_num [inferInvoiceDiscount, lt_abs, List.countP_cons, List.countP_nil]

/-- Claim C8, counterexample.  The claim says unparseable garbage
always yields the supplied default.  The garbage string "nan" is
accepted by the Decimal constructor as a quiet NaN, so _get_decimal
returns NaN rather than the default 0 (and the NaN later poisons
downstream Decimal comparisons). -/
theorem C8_counterexample :
    getDecimal (some (JVal.str "nan".toList)) 0 = DecVal.nan
      ∧ DecVal.nan ≠ DecVal.fin 0 := by
  exact ⟨rfl, by decide⟩

/-- Claim C8, amended.  The coercion functions are total and never
raise: numbers come back unchanged, null, a missing key, and
bool/list/dict values (where Decimal(str(value)) raises internally and
is caught) give the default, and a string cleaned of dollar signs and
commas gives its Decimal parse when one exists and the default
otherwise - except that strings accepted by Decimal as the special
values NaN/Infinity come back as those specials, not as the default.
Concretely, "$1,234.56" parses to 1234.56 and "garbage" falls back to
the default. -/
theorem C8_amended :
    (∀ q d : ℚ, getDecimal (some (JVal.num q)) d = DecVal.fin q)
    ∧ (∀ d : ℚ, getDecimal (some JVal.null) d = DecVal.fin d)
    ∧ (∀ d : ℚ, getDecimal none d = DecVal.fin d)
    ∧ (∀ d : ℚ, ∀ b : Bool, getDecimal (some (JVal.boolv b)) d = DecVal.fin d)
    ∧ (∀ s : List Char, ∀ d : ℚ, parseDec (cleanMoney s) = none →
        getDecimal (some (JVal.str s)) d = DecVal.fin d)
    ∧ (∀ s : List Char, ∀ d : ℚ, ∀ v : DecVal, parseDec (cleanMoney s) = some v →
        getDecimal (some (JVal.str s)) d = v)
    ∧ getDecimal (some (JVal.str "$1,234.56".toList)) 0 = DecVal.fin (123456/100)
    ∧ getDecimal (some (JVal.str "garbage".toList)) (7/2) = DecVal.fin (7/2) := by
  refine ⟨fun q d => rfl, fun d => rfl, fun d => rfl, fun d b => rfl, ?_, ?_, ?_, ?_⟩
  · intro s d h
    simp only [getDecimal, h, Option.getD_none]
  · intro s d v h
    simp only [getDecimal, h, Option.getD_some]
  · have hclean : cleanMoney "$1,234.56".toList = "1234.56".toList := by decide
    have htok : parseDecTok "1234.56".toList
        = some (DecTok.numTok false "1234".toList "56".toList 0) := by decide
    have hval : decOfTok (DecTok.numTok false "1234".toList "56".toList 0)
        = DecVal.fin (123456/100) := by
      have h1 : natOfDigits "1234".toList = 1234 := by decide
      have h2 : natOfDigits "56".toList = 56 := by decide
      have h3 : ("56".toList).length = 2 := rfl
      simp only [decOfTok, h1, h2, h3]
      norm_num
    simp only [getDecimal, parseDec, hclean, htok, Option.map_some', hval, Option.getD_some]
  · have hnone : parseDecTok (cleanMoney "garbage".toList) = none := by decide
    simp only [getDecimal, parseDec, hnone]
    rfl

/-- Claim C8, witness for the amended theorem: the string "xyz" fails
to parse and the default 1 comes back. -/
theorem C8_witness :
    getDecimal (some (JVal.str "xyz".toList)) 1 = DecVal.fin 1 :=
  C8_amended.2.2.2.2.1 "xyz".toList 1 (by decide)

/-- Claim C7, confirmed.  For every invoice aggregated without an
exception, actual_tax is invoice.total_tax_amount when that is
positive and otherwise the sum over line items of max(0, tax_amount),
never a combination, rounded to 2 decimal places (the source's extra
truthiness test and negative clamp are redundant).  On Scenario B
(per-line tax_amount 0, rate 0.0825, invoice total_tax_amount 41.25)
the lump sum 41.25 is used and the prompt builder classifies the item
as total mode. -/
theorem C7_actual_tax :
    (∀ inv : InvoiceM,
      computeActualTax inv =
        quantize 2 (if 0 < inv.total_tax_amount then inv.total_tax_amount
                    else (inv.line_items.map (fun li => max 0 li.tax_amount)).sum))
    ∧ computeActualTax invB = 4125/100
    ∧ promptTaxDisplayMode liB invB.total_tax_amount = TaxDisplayMode.totalShown := by
  refine ⟨?_, ?_, ?_⟩
  · intro inv
    simp only [computeActualTax]
    by_cases h : 0 < inv.total_tax_amount
    · have hc : inv.total_tax_amount ≠ 0 ∧ 0 < inv.total_tax_amount := ⟨h.ne', h⟩
      rw [if_pos hc]
      rw [if_neg (not_lt.mpr h.le)]
      rw [if_pos h]
    · have hcond : ¬(inv.total_tax_amount ≠ 0 ∧ 0 < inv.total_tax_amount) := by tauto
      have hsum : (0:ℚ) ≤ (inv.line_items.map (fun li => max 0 li.tax_amount)).sum := by
        refine List.sum_nonneg ?_
        intro x hx
        obtain ⟨li, _, rfl⟩ := List.mem_map.mp hx
        exact le_max_left 0 _
      rw [if_neg hcond]
      rw [if_neg (not_lt.mpr hsum)]
      rw [if_neg h]
  · norm_num [computeActualTax, invB, liB, quantize, roundHalfEven]
  · norm_num [promptTaxDisplayMode, liB, invB]

/-- Claim C10, confirmed.  Every determination written by
verify_invoice_taxes has status verified (when all per-item
verifications are correct) or discrepancy (otherwise) - also on the
aggregation-failure fallback path - so the error status of the model
enum is never produced by the engine. -/
theorem C10_no_error_status :
    ∀ inv : InvoiceM, ∀ verifs : List VerifResult, ∀ aggFail : Bool, ∀ d : DeterminationM,
      verifyInvoiceTaxes inv verifs aggFail = some d →
        d.determination_status
            = (if verifs.all (fun v => v.is_correct) then DetStatus.verified
               else DetStatus.discrepancy)
          ∧ d.determination_status ≠ DetStatus.error := by
  intro inv verifs aggFail d h
  simp only [verifyInvoiceTaxes] at h
  by_cases hstate : inv.state_code = [] ∨ inv.state_code = "XX".toList
  · rw [if_pos hstate] at h
    exact absurd h (by simp)
  · rw [if_neg hstate] at h
    have hd := Option.some.inj h
    subst hd
    constructor
    · rfl
    · show (if (verifs.all fun v => v.is_correct) = true then DetStatus.verified
            else DetStatus.discrepancy) ≠ DetStatus.error
      split_ifs <;> decide

/-- Claim C10, witness: the aggregation-failure path on an invoice with
valid state code still yields a verified/discrepancy status. -/
theorem C10_witness :
    det10.determination_status
        = (if ([] : List VerifResult).all (fun v => v.is_correct) then DetStatus.verified
           else DetStatus.discrepancy)
      ∧ det10.determination_status ≠ DetStatus.error := by
  refine C10_no_error_status inv10 [] true det10 ?_
  simp only [verifyInvoiceTaxes, inv10, det10]
  rw [if_neg (by decide)]
  norm_num

/-- Claim C3, counterexample.  The claim says an invoice with no line
items gets the sentinel result and no TaxDetermination.  The source
only guards on the state code: inv3 has a valid state code and an
empty line-item list, and verify_invoice_taxes still writes a
determination (vacuously verified, expected 0, actual 7). -/
theorem C3_counterexample :
    inv3.state_code ≠ [] ∧ inv3.state_code ≠ "XX".toList ∧ inv3.line_items = []
      ∧ verifyInvoiceTaxes inv3 [] false
          = some ⟨DetStatus.verified, 0, 7, 7⟩ := by
  refine ⟨by decide, by decide, rfl, ?_⟩
  simp only [verifyInvoiceTaxes, inv3]
  rw [if_neg (by decide)]
  norm_num [computeExpectedTax, computeActualTax, quantize, roundHalfEven]

/-- Claim C3, amended.  verify_invoice_taxes returns the sentinel "not
applicable" result (writing no determination) exactly when the
invoice's state_code is empty or XX; an invoice with a valid state code
but no line items is not skipped and still gets a determination. -/
theorem C3_amended :
    ∀ inv : InvoiceM, ∀ verifs : List VerifResult, ∀ aggFail : Bool,
      (verifyInvoiceTaxes inv verifs aggFail = none
        ↔ (inv.state_code = [] ∨ inv.state_code = "XX".toList)) := by
  intro inv verifs aggFail
  simp only [verifyInvoiceTaxes]
  split_ifs with h
  · exact iff_of_true rfl h
  · exact iff_of_false (by simp) h

/-- Loop-to-find? characterization: the source's for/break loop over
reasoning mentions adopts from the first mention above tolerance. -/
theorem adoptFromMentioned_eq_find (a : ℚ) (l : List ℚ) :
    adoptFromMentioned a l
      = (l.find? (fun m => decide (tol < m))).map (fun m => if |m - a| ≤ tol then a else m) := by
  induction l with
  | nil => rfl
  | cons m rest ih =>
    by_cases hm : tol < m
    · rw [adoptFromMentioned, if_pos hm,
        List.find?_cons_of_pos _ (by simp [hm]), Option.map_some']
      by_cases h2 : |m - a| ≤ tol
      · rw [if_pos h2, if_pos h2]
      · rw [if_neg h2, if_neg h2]
    · rw [adoptFromMentioned, if_neg hm,
        List.find?_cons_of_neg _ (by simp [hm]), ih]

/-- Claim C2, counterexample.  The claim says a non-zero rate is
adopted only if tax_status is taxable and the reasoning has no
exemption keyword.  Here the item is exempt and the reasoning contains
the keyword "exempt", yet the engine still adopts the mentioned 7%
(the status/keyword guard only protects the no-mention branch), and
is_correct ends up true. -/
theorem C2_counterexample :
    TaxStatus.exempt ≠ TaxStatus.taxable
    ∧ hasExemptKeyword kbCexC2.reasoning = true
    ∧ (verifyLineItemTax (7/100) TaxStatus.exempt kbCexC2).expected_tax_rate = 7/100
    ∧ (7:ℚ)/100 ≠ 0
    ∧ (verifyLineItemTax (7/100) TaxStatus.exempt kbCexC2).is_correct = true := by
  have htk : rateTokens ("Item is exempt but a 7% rate was applied".toList).length
      "Item is exempt but a 7% rate was applied".toList = [("7".toList, "".toList)] := by decide
  have hval : tokenRate ("7".toList, "".toList) = 7/100 := by
    have h1 : natOfDigits "7".toList = 7 := by decide
    have h2 : natOfDigits "".toList = 0 := by decide
    have h3 : ("".toList).length = 0 := rfl
    simp only [tokenRate, h1, h2, h3]
    norm_num
  have hrates : extractRates kbCexC2.reasoning = [7/100] := by
    simp only [kbCexC2, extractRates, htk, List.map_cons, List.map_nil, hval]
  have hA : applyZeroRateOverride (7/100) TaxStatus.exempt kbCexC2
      = { kbCexC2 with expected_tax_rate := 7/100 } := by
    simp only [applyZeroRateOverride]
    have hc : kbCexC2.expected_tax_rate = 0 ∧ (0:ℚ) < 7/100 := ⟨rfl, by norm_num⟩
    rw [if_pos hc, adoptFromMentioned_eq_find, hrates,
      List.find?_cons_of_pos _ (by norm_num [tol]), Option.map_some',
      if_pos (by norm_num [tol, abs_le])]
  have hB : enforceConsistency (7/100) { kbCexC2 with expected_tax_rate := (7:ℚ)/100 }
      = { kbCexC2 with expected_tax_rate := 7/100, is_correct := true } := by
    simp only [enforceConsistency]
    rw [if_neg (not_not_intro (by norm_num [tol, abs_le] :
      |(7:ℚ)/100 - (7:ℚ)/100| ≤ tol))]
    rw [if_pos (by decide : kbCexC2.is_correct = false)]
    rw [if_neg (by decide :
      ¬(containsSub "applied tax rate of 0%".toList
        (List.map Char.toLower kbCexC2.reasoning) = true))]
  have hC : detectContradiction (7/100)
      { kbCexC2 with expected_tax_rate := (7:ℚ)/100, is_correct := true }
      = { kbCexC2 with expected_tax_rate := 7/100, is_correct := true } := by
    simp only [detectContradiction]
    rw [if_pos trivial]
    rw [show extractRates kbCexC2.reasoning = [7/100] from hrates]
    rw [List.find?_cons_of_neg _ (by
      simp only [Bool.and_eq_true, decide_eq_true_eq, not_and]
      intro hlt
      exact absurd hlt (by norm_num [tol, lt_abs]))]
    rw [List.find?_nil]
    rw [if_neg (by decide :
      ¬((contradictionPhrases.any fun p => containsSub p
        (List.map Char.toLower kbCexC2.reasoning)) = true))]
  refine ⟨by decide, by decide, ?_, by norm_num, ?_⟩ <;>
    rw [verifyLineItemTax, hA, hB, hC]

/-- Claim C2, amended.  In the zero-expected-rate override the
tax_status/exemption-keyword guard only applies when the reasoning
mentions no rate above tolerance: then the applied rate is adopted
exactly for a taxable item without exemption keyword, and the expected
rate stays 0 otherwise.  When the reasoning does mention a rate above
tolerance, the first such mention is adopted unconditionally (as the
applied rate when within 0.0001 of the mention, else as the mention
itself), regardless of tax_status and keywords.  Under Scenario E
(taxable item, applied rate 0.07, KB expected rate 0, reasoning
mentioning 7%) the adopted rate equals the applied rate and is_correct
becomes true. -/
theorem C2_amended :
    (∀ a : ℚ, ∀ ts : TaxStatus, ∀ kb : VerifResult,
      kb.expected_tax_rate = 0 → 0 < a →
      (extractRates kb.reasoning).find? (fun m => decide (tol < m)) = none →
      (applyZeroRateOverride a ts kb).expected_tax_rate =
        (if ts = TaxStatus.taxable ∧ hasExemptKeyword kb.reasoning = false then a else 0))
    ∧ (∀ a : ℚ, ∀ ts : TaxStatus, ∀ kb : VerifResult, ∀ m : ℚ,
      kb.expected_tax_rate = 0 → 0 < a →
      (extractRates kb.reasoning).find? (fun m => decide (tol < m)) = some m →
      (applyZeroRateOverride a ts kb).expected_tax_rate =
        (if |m - a| ≤ tol then a else m))
    ∧ (verifyLineItemTax (7/100) TaxStatus.taxable kbE).expected_tax_rate = 7/100
    ∧ (verifyLineItemTax (7/100) TaxStatus.taxable kbE).is_correct = true := by
  have hfind : ∀ a : ℚ, ∀ ts : TaxStatus, ∀ kb : VerifResult,
      kb.expected_tax_rate = 0 → 0 < a →
      applyZeroRateOverride a ts kb =
        (match (extractRates kb.reasoning).find? (fun m => decide (tol < m)) with
         | some m => { kb with expected_tax_rate := if |m - a| ≤ tol then a else m }
         | none =>
           if ts = TaxStatus.taxable ∧ hasExemptKeyword kb.reasoning = false then
             { kb with expected_tax_rate := a }
           else kb) := by
    intro a ts kb h0 ha
    have hc : kb.expected_tax_rate = 0 ∧ 0 < a := ⟨h0, ha⟩
    simp only [applyZeroRateOverride, if_pos hc, adoptFromMentioned_eq_find]
    rcases hf : (extractRates kb.reasoning).find? (fun m => decide (tol < m)) with _ | m
    · rfl
    · rfl
  refine ⟨?_, ?_, ?_, ?_⟩
  · intro a ts kb h0 ha hnone
    rw [hfind a ts kb h0 ha, hnone]
    split_ifs with hk
    · rfl
    · exact h0
  · intro a ts kb m h0 ha hsome
    rw [hfind a ts kb h0 ha, hsome]
  all_goals {
    have htk : rateTokens ("The applicable rate is 7%".toList).length
        "The applicable rate is 7%".toList = [("7".toList, "".toList)] := by decide
    have hval : tokenRate ("7".toList, "".toList) = 7/100 := by
      have h1 : natOfDigits "7".toList = 7 := by decide
      simp only [tokenRate, h1]
      norm_num [natOfDigits]
    have hrates : extractRates kbE.reasoning = [7/100] := by
      simp only [kbE, extractRates, htk, List.map_cons, List.map_nil, hval]
    have hA : applyZeroRateOverride (7/100) TaxStatus.taxable kbE
        = { kbE with expected_tax_rate := 7/100 } := by
      simp only [applyZeroRateOverride]
      have hc : kbE.expected_tax_rate = 0 ∧ (0:ℚ) < 7/100 := ⟨rfl, by norm_num⟩
      rw [if_pos hc, adoptFromMentioned_eq_find, hrates,
        List.find?_cons_of_pos _ (by norm_num [tol]), Option.map_some',
        if_pos (by norm_num [tol, abs_le])]
    have hB : enforceConsistency (7/100) { kbE with expected_tax_rate := (7:ℚ)/100 }
        = { kbE with expected_tax_rate := 7/100, is_correct := true } := by
      simp only [enforceConsistency]
      rw [if_neg (not_not_intro (by norm_num [tol, abs_le] :
        |(7:ℚ)/100 - (7:ℚ)/100| ≤ tol))]
      rw [if_pos (by decide : kbE.is_correct = false)]
      rw [if_neg (by decide :
        ¬(containsSub "applied tax rate of 0%".toList
          (List.map Char.toLower kbE.reasoning) = true))]
    have hC : detectContradiction (7/100)
        { kbE with expected_tax_rate := (7:ℚ)/100, is_correct := true }
        = { kbE with expected_tax_rate := 7/100, is_correct := true } := by
      simp only [detectContradiction]
      rw [if_pos trivial]
      rw [show extractRates kbE.reasoning = [7/100] from hrates]
      rw [List.find?_cons_of_neg _ (by
        simp only [Bool.and_eq_true, decide_eq_true_eq, not_and]
        intro hlt
        exact absurd hlt (by norm_num [tol, lt_abs]))]
      rw [List.find?_nil]
      rw [if_neg (by decide :
        ¬((contradictionPhrases.any fun p => containsSub p
          (List.map Char.toLower kbE.reasoning)) = true))]
    rw [verifyLineItemTax, hA, hB, hC]
  }

/-- Claim C2, witness for the amended theorem: an exempt item with no
rate mention in the reasoning keeps expected rate 0. -/
theorem C2_witness :
    (applyZeroRateOverride (1/10) TaxStatus.exempt kbWitC2).expected_tax_rate
      = (if TaxStatus.exempt = TaxStatus.taxable ∧ hasExemptKeyword kbWitC2.reasoning = false
         then (1:ℚ)/10 else 0) := by
  refine C2_amended.1 (1/10) TaxStatus.exempt kbWitC2 rfl (by norm_num) ?_
  have htk : rateTokens ("no digits here".toList).length "no digits here".toList = [] := by
    decide
  show (extractRates kbWitC2.reasoning).find? (fun m => decide (tol < m)) = none
  simp only [kbWitC2, extractRates, htk, List.map_nil, List.find?_nil]

/-- The hard consistency rule never touches the expected rate. -/
theorem enforceConsistency_expected (a : ℚ) (v : VerifResult) :
    (enforceConsistency a v).expected_tax_rate = v.expected_tax_rate := by
  simp only [enforceConsistency]
  split_ifs <;> rfl

/-- Contradiction detection never touches the expected rate. -/
theorem detectContradiction_expected (a : ℚ) (v : VerifResult) :
    (detectContradiction a v).expected_tax_rate = v.expected_tax_rate := by
  simp only [detectContradiction]
  by_cases hc : v.is_correct = true
  · rw [if_pos hc]
    rcases hf : (extractRates v.reasoning).find?
        (fun m => decide (tol < |m - a|) && decide (|m - v.expected_tax_rate| ≤ tol))
      with _ | m
    · dsimp only
      split_ifs <;> rfl
    · rfl
  · rw [if_neg hc]

/-- If the hard consistency rule leaves is_correct true, the applied
and expected rates matched within tolerance. -/
theorem enforceConsistency_correct (a : ℚ) (v : VerifResult) :
    (enforceConsistency a v).is_correct = true → |a - v.expected_tax_rate| ≤ tol := by
  simp only [enforceConsistency]
  by_cases hm : |a - v.expected_tax_rate| ≤ tol
  · exact fun _ => hm
  · rw [if_pos hm]
    by_cases hc : v.is_correct = true
    · rw [if_pos hc]
      intro hcontra
      simp at hcontra
    · rw [if_neg hc]
      exact fun hcontra => absurd hcontra hc

/-- Contradiction detection only ever flips is_correct from true to
false. -/
theorem detectContradiction_correct (a : ℚ) (v : VerifResult) :
    (detectContradiction a v).is_correct = true → v.is_correct = true := by
  intro _
  by_cases hc : v.is_correct = true
  · exact hc
  · exact absurd (by rw [detectContradiction, if_neg hc] at *; assumption) hc

/-- Claim C1, amended.  One direction of the claimed equivalence holds
universally: whenever the final is_correct is true, the applied rate is
within 0.0001 of the final (post-override) expected rate -
equivalently, rates differing beyond tolerance always force is_correct
to false.  The converse direction fails (see the counterexample):
matching rates force is_correct to true in the consistency step, but
the later contradiction-detection step may flip it back to false when
the reasoning mentions a rate within tolerance of the expected rate
yet beyond tolerance of the applied rate. -/
theorem C1_amended :
    ∀ a : ℚ, ∀ ts : TaxStatus, ∀ kb : VerifResult,
      (verifyLineItemTax a ts kb).is_correct = true →
        |a - (verifyLineItemTax a ts kb).expected_tax_rate| ≤ tol := by
  intro a ts kb h
  rw [verifyLineItemTax] at h ⊢
  rw [detectContradiction_expected, enforceConsistency_expected]
  exact enforceConsistency_correct a _ (detectContradiction_correct a _ h)

/-- Claim C1, witness for the amended theorem: a matching, clean answer
stays is_correct and satisfies the tolerance bound. -/
theorem C1_witness :
    |(7:ℚ)/100 - (verifyLineItemTax (7/100) TaxStatus.taxable kbWitC1).expected_tax_rate|
      ≤ tol := by
  refine C1_amended (7/100) TaxStatus.taxable kbWitC1 ?_
  have htk : rateTokens ("rate confirmed".toList).length "rate confirmed".toList = [] := by
    decide
  have hrates : extractRates kbWitC1.reasoning = [] := by
    simp only [kbWitC1, extractRates, htk, List.map_nil]
  have hA : applyZeroRateOverride (7/100) TaxStatus.taxable kbWitC1 = kbWitC1 := by
    rw [applyZeroRateOverride, if_neg (by norm_num [kbWitC1] :
      ¬(kbWitC1.expected_tax_rate = 0 ∧ (0:ℚ) < 7/100))]
  have hB : enforceConsistency (7/100) kbWitC1 = kbWitC1 := by
    simp only [enforceConsistency]
    rw [if_neg (not_not_intro (by norm_num [kbWitC1, tol, abs_le] :
      |(7:ℚ)/100 - kbWitC1.expected_tax_rate| ≤ tol))]
    rw [if_neg (by decide : ¬(kbWitC1.is_correct = false))]
  have hC : detectContradiction (7/100) kbWitC1 = kbWitC1 := by
    simp only [detectContradiction]
    rw [if_pos (by decide : kbWitC1.is_correct = true)]
    rw [show extractRates kbWitC1.reasoning = [] from hrates]
    rw [List.find?_nil]
    rw [if_neg (by decide :
      ¬((contradictionPhrases.any fun p => containsSub p
        (List.map Char.toLower kbWitC1.reasoning)) = true))]
  rw [verifyLineItemTax, hA, hB, hC]
  rfl

/-- Claim C1, counterexample.  The claim makes is_correct equivalent to
the rates matching within 0.0001.  Here applied = 0.05 and the final
expected rate is 0.0501 (difference exactly 0.0001, within tolerance),
yet the final is_correct is false: contradiction detection fires on the
mentioned 5.02%, which is within tolerance of the expected rate but
beyond tolerance of the applied rate. -/
theorem C1_counterexample :
    |(1:ℚ)/20 - (verifyLineItemTax (1/20) TaxStatus.taxable kbCexC1).expected_tax_rate| ≤ tol
    ∧ (verifyLineItemTax (1/20) TaxStatus.taxable kbCexC1).is_correct = false := by
  have htk : rateTokens ("the rate is 5.02%".toList).length "the rate is 5.02%".toList
      = [("5".toList, "02".toList)] := by decide
  have hval : tokenRate ("5".toList, "02".toList) = 502/10000 := by
    have h1 : natOfDigits "5".toList = 5 := by decide
    have h2 : natOfDigits "02".toList = 2 := by decide
    have h3 : ("02".toList).length = 2 := rfl
    simp only [tokenRate, h1, h2, h3]
    norm_num
  have hrates : extractRates kbCexC1.reasoning = [502/10000] := by
    simp only [kbCexC1, extractRates, htk, List.map_cons, List.map_nil, hval]
  have hA : applyZeroRateOverride (1/20) TaxStatus.taxable kbCexC1 = kbCexC1 := by
    rw [applyZeroRateOverride, if_neg (by norm_num [kbCexC1] :
      ¬(kbCexC1.expected_tax_rate = 0 ∧ (0:ℚ) < 1/20))]
  have hB : enforceConsistency (1/20) kbCexC1 = kbCexC1 := by
    simp only [enforceConsistency]
    rw [if_neg (not_not_intro (by norm_num [kbCexC1, tol, abs_le] :
      |(1:ℚ)/20 - kbCexC1.expected_tax_rate| ≤ tol))]
    rw [if_neg (by decide : ¬(kbCexC1.is_correct = false))]
  have hC : detectContradiction (1/20) kbCexC1
      = { kbCexC1 with
          is_correct := false
          reasoning := contradictionNote (502/10000) (1/20) kbCexC1.reasoning } := by
    simp only [detectContradiction]
    rw [if_pos (by decide : kbCexC1.is_correct = true)]
    rw [show extractRates kbCexC1.reasoning = [502/10000] from hrates]
    rw [List.find?_cons_of_pos _ (by
      simp only [Bool.and_eq_true, decide_eq_true_eq]
      constructor
      · norm_num [kbCexC1, tol, lt_abs]
      · norm_num [kbCexC1, tol, abs_le])]
  constructor
  · rw [verifyLineItemTax, hA, hB, hC]
    norm_num [tol, abs_le, kbCexC1]
  · rw [verifyLineItemTax, hA, hB, hC]

end TaxRight
